import Mathlib

/-!
# Verification of the copper encoding engine

Shallow embedding of the copper datapack-generation library:
* `src/core/mod.rs` — `Identifier`, `Selector`, `Coordinate`/`Coordinates`;
* `src/datapack/function.rs` — `Function::run` and the command types;
* `src/datapack/item_modifier.rs` — `NumberProvider`, `ScoreTarget`, `ItemModifier`;
* `src/datapack/predicate.rs` — `Predicate`.

Rust machine scalars are modelled as follows: `u64`/`i64` by `Nat`/`Int`
(the library only ever formats them, never overflows them), `f64` by `ℚ`
(every finite `f64` is a rational; the renderer below mirrors Rust's
`Display` output on the decimal-exact values the library is used with).
Catalog enumerations (`Item`, `Block`, `Entity`, `Effect`, …) are opaque
name catalogs consumed only through their canonical lowercase name, so they
are modelled by that name `String`.

JSON output (streamed by `serde_json::to_writer`) is modelled as a JSON
value tree whose objects keep their key insertion order, which is the order
the source writes `serialize_entry` calls.
-/

namespace Copper

/-- A JSON value. Objects preserve key insertion order (the streaming
serializer in the source emits entries in the order they are written). -/
inductive Json where
  | num (q : ℚ)
  | str (s : String)
  | bool (b : Bool)
  | arr (elems : List Json)
  | obj (members : List (String × Json))

/-- The member list of a JSON object (and `[]` on non-objects). -/
def Json.objMembers : Json → List (String × Json)
  | .obj ms => ms
  | _ => []

/-- `Identifier` from `src/core/mod.rs` (the Rust field `namespace` is a Lean
keyword, so it is called `ns` here). -/
structure Identifier where
  ns : String
  folders : List String
  id : String
deriving DecidableEq

/-- `impl Serialize for Identifier` (src/core/mod.rs:35-46): starts from the
namespace, appends `"{folder}/"` for each folder, then the id, and emits the
result as a JSON string.  Note the source writes no `:` anywhere. -/
def Identifier.serializeStr (i : Identifier) : String :=
  (i.folders.foldl (fun out f => out ++ f ++ "/") i.ns) ++ i.id

/-- The JSON leaf an `Identifier` serializes to. -/
def Identifier.serialize (i : Identifier) : Json := .str i.serializeStr

/-- `SelectorType` (src/core/mod.rs:66-86); `Default` is `A`. -/
inductive SelectorType where
  | S | P | E | A | R
deriving DecidableEq

/-- `impl Display for SelectorType`. -/
def SelectorType.render : SelectorType → String
  | .S => "s"
  | .P => "p"
  | .E => "e"
  | .A => "a"
  | .R => "r"

/-- `SelectorSort` (src/core/mod.rs:89-106). -/
inductive SelectorSort where
  | Nearest | Furthest | Arbritrary | Random
deriving DecidableEq

/-- `impl Display for SelectorSort`. -/
def SelectorSort.render : SelectorSort → String
  | .Nearest => "nearest"
  | .Furthest => "furthest"
  | .Arbritrary => "arbritrary"
  | .Random => "random"

/-- `GameMode` (src/core/mod.rs:109-126). -/
inductive GameMode where
  | Creative | Survival | Spectator | Adventure
deriving DecidableEq

/-- `impl Display for GameMode`. -/
def GameMode.render : GameMode → String
  | .Creative => "creative"
  | .Survival => "survival"
  | .Spectator => "spectator"
  | .Adventure => "adventure"

/-- Catalog enumerations (`Entity`, `Item`, `Block`, `Effect`, `Enchant`, …)
are consumed only through their canonical lowercase name (their `Display` and
`Serialize` both emit exactly that name, generated in build.rs), so they are
modelled by that name. -/
abbrev Entity := String

/-- See `Entity`. -/
abbrev Item := String

/-- See `Entity`. -/
abbrev Block := String

/-- See `Entity`. -/
abbrev Effect := String

/-- `Selector` (src/core/mod.rs:137-150): a kind plus nine optional criteria. -/
structure Selector where
  sel : SelectorType
  limit : Option Nat
  sort : Option SelectorSort
  level : Option (Nat × Nat)
  game_mode : Option (GameMode × Bool)
  name : Option (String × Bool)
  x_rot : Option (Nat × Nat)
  y_rot : Option (Nat × Nat)
  ty : Option (Entity × Bool)
  tag : Option (String × Bool)
deriving DecidableEq

/-- `Selector::new`: the bare selector of a kind — every criterion unset
(`Self {sel, ..Self::default()}`). -/
def Selector.new (sel : SelectorType) : Selector :=
  { sel := sel, limit := none, sort := none, level := none, game_mode := none,
    name := none, x_rot := none, y_rot := none, ty := none, tag := none }

/-- `sel::at_s()`. -/
def at_s : Selector := Selector.new .S

/-- `sel::at_p()`. -/
def at_p : Selector := Selector.new .P

/-- `sel::at_e()`. -/
def at_e : Selector := Selector.new .E

/-- `sel::at_a()`. -/
def at_a : Selector := Selector.new .A

/-- `sel::at_r()`. -/
def at_r : Selector := Selector.new .R

/-- The local `fn pos` inside `Display for Selector`. -/
def pos (positive : Bool) : String := if positive then "" else "!"

/-- `impl Display for Selector` (src/core/mod.rs:201-226).  If the selector
equals its bare counterpart no brackets are written; otherwise each set
criterion is written in declared order.  The source writes the criteria
back-to-back — there is no comma between them. -/
def Selector.render (s : Selector) : String :=
  let listStart := if s = Selector.new s.sel then "" else "["
  let listEnd := if s = Selector.new s.sel then "" else "]"
  "@" ++ s.sel.render ++ listStart
    ++ (match s.limit with | some l => "limit=" ++ toString l | none => "")
    ++ (match s.sort with | some x => "sort=" ++ x.render | none => "")
    ++ (match s.level with
        | some (mn, mx) => "level=" ++ toString mn ++ ".." ++ toString mx
        | none => "")
    ++ (match s.game_mode with
        | some (m, p) => "gamemode=" ++ pos p ++ m.render
        | none => "")
    ++ (match s.name with | some (n, p) => "name=" ++ pos p ++ n | none => "")
    ++ (match s.x_rot with
        | some (mn, mx) => "x_rotation=" ++ toString mn ++ ".." ++ toString mx
        | none => "")
    ++ (match s.y_rot with
        | some (mn, mx) => "y_rotation=" ++ toString mn ++ ".." ++ toString mx
        | none => "")
    ++ (match s.ty with | some (t, p) => "type=" ++ pos p ++ t | none => "")
    ++ (match s.tag with | some (t, p) => "tag=" ++ pos p ++ t | none => "")
    ++ listEnd

/-! ## Rendering of `f64` literals

Rust's `{}` on `f64` prints the shortest decimal literal; on the
decimal-exact values the library manipulates this is the exact decimal
expansion, with no `.0` on integral values (`5.0` prints `5`).  `fmtF64`
reproduces that on `ℚ`: integral values print as integers, values with a
finite decimal expansion print that expansion. -/

/-- Multiplicity of `p` in `n` (fuel-based so it reduces by evaluation). -/
def countFactorAux (p : Nat) : Nat → Nat → Nat
  | 0, _ => 0
  | fuel + 1, n => if 2 ≤ p ∧ 0 < n ∧ n % p = 0 then countFactorAux p fuel (n / p) + 1 else 0

/-- Multiplicity of `p` in `n`. -/
def countFactor (p n : Nat) : Nat := countFactorAux p n n

/-- Decimal rendering of a rational, matching Rust's `f64` `Display` on
decimal-exact values: integral values render with no fractional part, other
finite-decimal values render sign, integer part, `.`, fraction digits. -/
def fmtF64 (q : ℚ) : String :=
  if q.den = 1 then toString q.num
  else
    let a := countFactor 2 q.den
    let b := countFactor 5 q.den
    if q.den = 2 ^ a * 5 ^ b then
      let k := max a b
      let digits := toString (q.num.natAbs * 10 ^ k / q.den)
      let digits :=
        if digits.length ≤ k then String.mk (List.replicate (k + 1 - digits.length) '0') ++ digits
        else digits
      (if q.num < 0 then "-" else "")
        ++ digits.take (digits.length - k) ++ "." ++ digits.drop (digits.length - k)
    else toString q.num ++ "/" ++ toString q.den

/-- The local helper `fn zero` (src/core/mod.rs:252-253): writes the literal
only when the value is not exactly zero. -/
def zero (x : ℚ) : String := if x ≠ 0 then fmtF64 x else ""

/-- `Coordinate` (src/core/mod.rs:257-261). -/
inductive Coordinate where
  | Absolute (x : ℚ)
  | Relative (x : ℚ)
deriving DecidableEq

/-- `impl Display for Coordinate` (src/core/mod.rs:262-269): absolute values
always print their literal; relative values print `~` then the literal
through `zero` (elided at 0). -/
def Coordinate.render : Coordinate → String
  | .Absolute x => fmtF64 x
  | .Relative x => "~" ++ zero x

/-- `Coordinates` (src/core/mod.rs:274-280). -/
inductive Coordinates where
  | Mixed (x y z : Coordinate)
  | Local (x y z : ℚ)
deriving DecidableEq

/-- `impl Display for Coordinates` (src/core/mod.rs:281-295). -/
def Coordinates.render : Coordinates → String
  | .Local x y z => "^" ++ zero x ++ " ^" ++ zero y ++ " ^" ++ zero z
  | .Mixed x y z => x.render ++ " " ++ y.render ++ " " ++ z.render

/-! ## Commands (`src/datapack/function.rs`)

Each Rust command struct has a lowercase-named constructor function of the
same name that fills in default values; those constructors are modelled as
`<Cmd>.new`.  `Command::output` writes to the open file; it is modelled as
the `String` the command appends. -/

/-- The `give` command struct (src/datapack/function.rs:83-87). -/
structure Give where
  target : Selector
  item : Item
  count : Nat

/-- The constructor `fn Give(target, item)`: `count` defaults to 1. -/
def Give.new (target : Selector) (item : Item) : Give :=
  { target := target, item := item, count := 1 }

/-- `impl Command for Give` (src/datapack/function.rs:92-100): the count is
elided when 1; the source then writes its own `"\n"`. -/
def Give.output (c : Give) : String :=
  "give " ++ c.target.render ++ " " ++ c.item
    ++ (if c.count ≠ 1 then " " ++ toString c.count else "")
    ++ "\n"

/-- The `clear` command struct (src/datapack/function.rs:104-107). -/
structure Clear where
  target : Selector
  item : Option (Item × Option Nat)

/-- The constructor `fn Clear()`: target `@s`, no item. -/
def Clear.new : Clear := { target := at_s, item := none }

/-- `impl Command for Clear` (src/datapack/function.rs:114-127): the item
rendering is nested inside the `target != at_s()` branch, so with a default
target the item (even when set) is never written. -/
def Clear.output (c : Clear) : String :=
  "clear" ++
    (if c.target ≠ at_s then
      " " ++ c.target.render ++
        (match c.item with
          | some (item, count) =>
            " " ++ item ++ (match count with | some n => " " ++ toString n | none => "")
          | none => "")
    else "")

/-- The `setblock` command struct (src/datapack/function.rs:131-134). -/
structure Setblock where
  location : Coordinates
  block : Block

/-- `impl Command for Setblock`. -/
def Setblock.output (c : Setblock) : String :=
  "setblock " ++ c.location.render ++ " " ++ c.block

/-- The `kill` command struct (src/datapack/function.rs:146-148). -/
structure Kill where
  target : Selector

/-- The constructor `fn Kill()`: target `@s`. -/
def Kill.new : Kill := { target := at_s }

/-- `impl Command for Kill`: the target is elided when it is bare `@s`. -/
def Kill.output (c : Kill) : String :=
  "kill" ++ (if c.target ≠ at_s then " " ++ c.target.render else "")

/-- The `effect give` command struct (src/datapack/function.rs:163-169). -/
structure EffectGive where
  target : Selector
  effect : Effect
  seconds : Nat
  amplifier : Nat
  hide_particles : Bool

/-- The constructor `fn EffectGive(target, effect)`
(src/datapack/function.rs:170-172): it fills `seconds: 30`, `amplifier: 1`,
`hide_particles: false` — note the source's `amplifier: 1`. -/
def EffectGive.new (target : Selector) (effect : Effect) : EffectGive :=
  { target := target, effect := effect, seconds := 30, amplifier := 1,
    hide_particles := false }

/-- `impl Command for EffectGive` (src/datapack/function.rs:173-184):
trailing-optional elision via a running `variation` index, then each trailing
field prints when `variation` reaches its position. -/
def EffectGive.output (c : EffectGive) : String :=
  let variation : Nat := 0
  let variation := if c.seconds ≠ 30 then 1 else variation
  let variation := if c.amplifier ≠ 0 then 2 else variation
  let variation := if c.hide_particles then 3 else variation
  "effect give " ++ c.target.render ++ " " ++ c.effect
    ++ (if 1 ≤ variation then " " ++ toString c.seconds else "")
    ++ (if 2 ≤ variation then " " ++ toString c.amplifier else "")
    ++ (if 3 ≤ variation then " " ++ (if c.hide_particles then "true" else "false") else "")

/-- The `effect clear` command struct (src/datapack/function.rs:188-191). -/
structure EffectClear where
  target : Selector
  effect : Option Effect

/-- The constructor `fn EffectClear()`: target `@s`, no effect. -/
def EffectClear.new : EffectClear := { target := at_s, effect := none }

/-- `impl Command for EffectClear` (src/datapack/function.rs:195-205). -/
def EffectClear.output (c : EffectClear) : String :=
  "effect clear"
    ++ (if c.target ≠ at_s ∨ c.effect.isSome then " " ++ c.target.render else "")
    ++ (match c.effect with | some e => " " ++ e | none => "")

/-- The closed set of commands that can be passed to `Function::run` (the
implementors of the `Command` trait). -/
inductive Cmd where
  | give (c : Give)
  | clear (c : Clear)
  | setblock (c : Setblock)
  | kill (c : Kill)
  | effectGive (c : EffectGive)
  | effectClear (c : EffectClear)

/-- Dispatch of `Command::output`. -/
def Cmd.output : Cmd → String
  | .give c => c.output
  | .clear c => c.output
  | .setblock c => c.output
  | .kill c => c.output
  | .effectGive c => c.output
  | .effectClear c => c.output

/-- A `Function` handle (src/datapack/function.rs:39-42): its `prefix` field
is modelled as `pfx` (and its open file as the `out` string written so far). -/
structure Function where
  pfx : String
  out : String

/-- A freshly created function file: empty prefix, nothing written. -/
def Function.new : Function := { pfx := "", out := "" }

/-- `Function::run` (src/datapack/function.rs:58-62): writes the prefix (and
`" run "` when it is non-empty), then the command's output, then a newline
(`writeln!`). -/
def Function.run (f : Function) (cmd : Cmd) : Function :=
  { f with out := f.out ++ f.pfx ++ (if f.pfx = "" then "" else " run ") ++ cmd.output ++ "\n" }

/-! ## `NumberProvider` and `ScoreTarget` (`src/datapack/item_modifier.rs`) -/

/-- `ContextEntity` (src/datapack/item_modifier.rs:14-23), serialized through
`#[serde(rename_all = "snake_case")]`. -/
inductive ContextEntity where
  | This | Killer | DirectKiller | PlayerKiller
deriving DecidableEq

/-- The snake_case wire name of a `ContextEntity`. -/
def ContextEntity.wire : ContextEntity → String
  | .This => "this"
  | .Killer => "killer"
  | .DirectKiller => "direct_killer"
  | .PlayerKiller => "player_killer"

/-- `ScoreTarget` (src/datapack/item_modifier.rs:60-65). -/
inductive ScoreTarget where
  | Fixed (name : String)
  | Context (c : ContextEntity)
deriving DecidableEq

/-- `impl Serialize for ScoreTarget` (src/datapack/item_modifier.rs:66-80):
a context entity serializes as its bare tag string; a fixed name as the map
`type: "fixed", name: <name>`. -/
def ScoreTarget.serialize : ScoreTarget → Json
  | .Context c => .str c.wire
  | .Fixed name => .obj [("type", .str "fixed"), ("name", .str name)]

/-- The scalar element of a `NumberProvider` (the `Number` trait is
implemented for `i64` and `f64`; `i64` as `Int`, `f64` as `ℚ`). -/
inductive NumVal where
  | int (n : Int)
  | float (q : ℚ)
deriving DecidableEq

/-- The serde serialization of a scalar: a bare JSON number. -/
def NumVal.toJson : NumVal → Json
  | .int n => .num n
  | .float q => .num q

/-- `NumberProvider` (src/datapack/item_modifier.rs:84-110).  The source is
generic over `N: Number` (with `Uniform` at `N`, `Binomial` at `i64`/`f64`);
here the scalar positions hold `NumVal` and the recursive positions hold
providers, which covers every instantiation the source admits. -/
inductive NumberProvider where
  | Constant (n : NumVal)
  | Uniform (min max : NumberProvider)
  | Binomial (n p : NumberProvider)
  | Score (target : ScoreTarget) (score : String) (scale : ℚ)
deriving DecidableEq

/-- `impl Serialize for NumberProvider` (src/datapack/item_modifier.rs:111-144):
`Constant` collapses to its scalar; the other variants are maps led by a
`type` discriminant; `Score` omits `scale` when it equals 1.0. -/
def NumberProvider.serialize : NumberProvider → Json
  | .Constant n => n.toJson
  | .Uniform min max =>
      .obj [("type", .str "uniform"), ("min", min.serialize), ("max", max.serialize)]
  | .Binomial n p =>
      .obj [("type", .str "binomial"), ("n", n.serialize), ("p", p.serialize)]
  | .Score target score scale =>
      .obj ([("type", .str "score"), ("target", target.serialize), ("score", .str score)]
        ++ if scale ≠ 1 then [("scale", .num scale)] else [])

/-- `Range` (src/datapack/item_modifier.rs:233-238): `{min, max}`, both
number providers. -/
structure RangeNP where
  min : NumberProvider
  max : NumberProvider
deriving DecidableEq

/-- `#[derive(Serialize)]` on `Range`. -/
def RangeNP.serialize (r : RangeNP) : Json :=
  .obj [("min", r.min.serialize), ("max", r.max.serialize)]

/-! ## `ItemModifier` (`src/datapack/item_modifier.rs`)

The enum is serialized internally tagged: `#[serde(tag = "function")]` with
snake_case variant names, `LimitCountExact` and `LimitCountRange` both
renamed to `"limit_count"`.  The embedding covers the variants the
verification concerns — both `limit_count` variants plus the simple-payload
variants around them; the remaining variants only add further config-struct
payloads under the same tagging scheme. -/

/-- The embedded variants of `ItemModifier` (src/datapack/item_modifier.rs:317-482). -/
inductive ItemModifier where
  | ExplosionDecay
  | FurnaceSmelt
  | LimitCountExact (limit : NumberProvider)
  | LimitCountRange (limit : RangeNP)
  | LootingEnchant (count : NumberProvider) (limit : Int)
  | SetCount (count : NumberProvider) (add : Bool)
  | SetNbt (tag : String)

/-- The internally tagged serialization of `ItemModifier`: one object whose
first member is `function: <variant name>` followed by the variant's fields
(`add` is skipped when false via `skip_serializing_if = "Not::not"`). -/
def ItemModifier.serialize : ItemModifier → Json
  | .ExplosionDecay => .obj [("function", .str "explosion_decay")]
  | .FurnaceSmelt => .obj [("function", .str "furnace_smelt")]
  | .LimitCountExact limit =>
      .obj [("function", .str "limit_count"), ("limit", limit.serialize)]
  | .LimitCountRange limit =>
      .obj [("function", .str "limit_count"), ("limit", limit.serialize)]
  | .LootingEnchant count limit =>
      .obj [("function", .str "looting_enchant"), ("count", count.serialize),
            ("limit", .num limit)]
  | .SetCount count add =>
      .obj ([("function", .str "set_count"), ("count", count.serialize)]
        ++ if add then [("add", .bool true)] else [])
  | .SetNbt tag =>
      .obj [("function", .str "set_nbt"), ("tag", .str tag)]

/-! ## `Predicate` (`src/datapack/predicate.rs`)

Serialized internally tagged: `#[serde(tag = "condition", rename_all =
"snake_case")]`.  The embedding covers the recursive variants
(`Alternative`, `Inverted`) and the scalar-payload variants; the remaining
variants only add config-struct payloads under the same tagging scheme. -/

/-- The embedded variants of `Predicate` (src/datapack/predicate.rs:232-339). -/
inductive Predicate where
  | Alternative (terms : List Predicate)
  | Inverted (term : Predicate)
  | KilledByPlayer (inverse : Bool)
  | RandomChance (chance : ℚ)
  | RandomChanceWithLooting (chance looting_multiplier : ℚ)
  | Reference (name : Identifier)
  | SurvivesExplosion
  | TableBonus (enchantment : Int) (chances : List ℚ)

mutual

/-- The internally tagged serialization of `Predicate`: one object whose
first member is `condition: <snake_case variant name>` followed by the
variant's fields; child predicates are serialized by the same function
(`inverse` is skipped when false via `skip_serializing_if = "Not::not"`). -/
def Predicate.serialize : Predicate → Json
  | .Alternative terms =>
      .obj [("condition", .str "alternative"),
            ("terms", .arr (Predicate.serializeList terms))]
  | .Inverted term =>
      .obj [("condition", .str "inverted"), ("term", term.serialize)]
  | .KilledByPlayer inverse =>
      .obj (("condition", .str "killed_by_player")
        :: if inverse then [("inverse", .bool true)] else [])
  | .RandomChance chance =>
      .obj [("condition", .str "random_chance"), ("chance", .num chance)]
  | .RandomChanceWithLooting chance looting_multiplier =>
      .obj [("condition", .str "random_chance_with_looting"),
            ("chance", .num chance), ("looting_multiplier", .num looting_multiplier)]
  | .Reference name =>
      .obj [("condition", .str "reference"), ("name", name.serialize)]
  | .SurvivesExplosion => .obj [("condition", .str "survives_explosion")]
  | .TableBonus enchantment chances =>
      .obj [("condition", .str "table_bonus"), ("enchantment", .num enchantment),
            ("chances", .arr (chances.map Json.num))]

/-- Element-wise serialization of a predicate list (the serde serialization
of the `terms` slice of `Alternative`). -/
def Predicate.serializeList : List Predicate → List Json
  | [] => []
  | p :: ps => p.serialize :: Predicate.serializeList ps

end

/-! ## Claim theorems -/

/-- C1: the spec claims `Identifier` serializes as the canonical string
`ns:f1/.../fk/i`.  The source serializer never writes the `:` after the
namespace: `{namespace: "foo", folders: ["bar"], id: "quux"}` serializes as
the JSON string `"foobar/quux"`, not `"foo:bar/quux"` — evaluation of the
embedded serializer at that input. -/
theorem C1_identifier_serialize_eval :
    Identifier.serializeStr ⟨"foo", ["bar"], "quux"⟩ = "foobar/quux" ∧
    Identifier.serialize ⟨"foo", ["bar"], "quux"⟩ = Json.str "foobar/quux" ∧
    Identifier.serializeStr ⟨"minecraft", [], "dirt"⟩ = "minecraftdirt" :=
  ⟨rfl, rfl, rfl⟩

/-- C2: the spec claims set criteria render `key=value` joined by commas.
The source writes the criteria back-to-back with no comma: `@a` with
`gamemode=(Creative, positive)` and `tag=("foo", positive)` renders
`@a[gamemode=creativetag=foo]`, not `@a[gamemode=creative,tag=foo]` —
evaluation of the embedded renderer at that input (and at a bare and a
single-criterion selector, where no comma is needed and the render is the
claimed one). -/
theorem C2_selector_render_eval :
    Selector.render { at_a with game_mode := some (.Creative, true), tag := some ("foo", true) }
      = "@a[gamemode=creativetag=foo]" ∧
    Selector.render at_a = "@a" ∧
    Selector.render { at_a with tag := some ("foo", true) } = "@a[tag=foo]" :=
  ⟨rfl, rfl, rfl⟩

/-- C3: the spec claims every `Function::run` call appends exactly one line
(one trailing newline, none embedded).  `Give`'s `output` writes its own
`"\n"` and `run` appends another via `writeln!`, so a single `run` of a
`give` command appends `"give @s dirt\n\n"` — two newlines, leaving a blank
line — while e.g. `kill` appends exactly one.  Evaluation of the embedded
`Function.run` at those inputs. -/
theorem C3_function_run_eval :
    (Function.new.run (.give (Give.new at_s "dirt"))).out = "give @s dirt\n\n" ∧
    (Function.new.run (.kill Kill.new)).out = "kill\n" :=
  ⟨rfl, rfl⟩

/-- C4: the spec claims the `EffectGive` constructor result is
indistinguishable from the all-default record (seconds=30, amplifier=0,
hide_particles=false) and renders bare.  The source constructor fills
`amplifier: 1` while the elision algorithm's default for amplifier is 0, so
the constructed command renders `effect give @s blindness 30 1`, not
`effect give @s blindness` — evaluation of the embedded constructor and
renderer. -/
theorem C4_effect_give_constructor_eval :
    (EffectGive.new at_s "blindness").amplifier = 1 ∧
    (EffectGive.new at_s "blindness").output = "effect give @s blindness 30 1" ∧
    EffectGive.output ⟨at_s, "blindness", 30, 0, false⟩ = "effect give @s blindness" :=
  ⟨rfl, rfl, rfl⟩

/-- C5: for every target and effect, the explicit `EffectGive` record with
seconds=30, amplifier=0, hide_particles=false renders only
`effect give <target> <effect>`; with hide_particles=true (seconds and
amplifier still default) it renders `effect give <target> <effect> 30 0
true` — the default-valued seconds and amplifier print because a later field
deviates, and nothing prints past the deviating field. -/
theorem C5_effect_give_elision (t : Selector) (e : Effect) :
    EffectGive.output ⟨t, e, 30, 0, false⟩ = "effect give " ++ t.render ++ " " ++ e ∧
    EffectGive.output ⟨t, e, 30, 0, true⟩
      = "effect give " ++ t.render ++ " " ++ e ++ " 30 0 true" := by
  constructor
  · simp [EffectGive.output, String.append_empty]
  · simp [EffectGive.output, String.append_assoc]
    rfl

/-- Witness for C5 at target `@s`, effect `speed`. -/
theorem C5_effect_give_elision_witness :
    EffectGive.output ⟨at_s, "speed", 30, 0, false⟩
        = "effect give " ++ at_s.render ++ " " ++ "speed" ∧
    EffectGive.output ⟨at_s, "speed", 30, 0, true⟩
        = "effect give " ++ at_s.render ++ " " ++ "speed" ++ " 30 0 true" :=
  C5_effect_give_elision at_s "speed"

/-- C6: the spec claims a `Clear` whose target is the default `@s` but whose
item is set renders `clear @s <item>` (fields before the variation index
print even when default).  The source nests the item rendering inside the
`target != @s` branch, so the set item is dropped entirely and only `clear`
is written — evaluation of the embedded renderer at such inputs. -/
theorem C6_clear_eval :
    Clear.output ⟨at_s, some ("dirt", none)⟩ = "clear" ∧
    Clear.output ⟨at_s, some ("dirt", some 3)⟩ = "clear" :=
  ⟨rfl, rfl⟩

/-- C7: `NumberProvider` JSON encoding — `Constant` collapses to its bare
scalar and is never an object; `Uniform`, `Binomial` and `Score` are objects
led by a `type` discriminant; a `Score` object has a `scale` member iff
`scale ≠ 1.0`; a `Context` score target encodes as its bare tag string and a
`Fixed` one as the object `type: "fixed", name: <name>`. -/
theorem C7_number_provider :
    (∀ n : NumVal, (NumberProvider.Constant n).serialize = n.toJson) ∧
    (∀ n : Int, (NumberProvider.Constant (.int n)).serialize = Json.num n) ∧
    (∀ n : NumVal, ∀ ms, (NumberProvider.Constant n).serialize ≠ Json.obj ms) ∧
    (∀ a b, ∃ rest, (NumberProvider.Uniform a b).serialize
        = Json.obj (("type", Json.str "uniform") :: rest)) ∧
    (∀ n p, ∃ rest, (NumberProvider.Binomial n p).serialize
        = Json.obj (("type", Json.str "binomial") :: rest)) ∧
    (∀ t s sc, ∃ rest, (NumberProvider.Score t s sc).serialize
        = Json.obj (("type", Json.str "score") :: rest)) ∧
    (∀ t s sc, (∃ v, ("scale", v) ∈ ((NumberProvider.Score t s sc).serialize).objMembers)
        ↔ sc ≠ 1) ∧
    (∀ c, (ScoreTarget.Context c).serialize = Json.str c.wire) ∧
    (∀ name, (ScoreTarget.Fixed name).serialize
        = Json.obj [("type", Json.str "fixed"), ("name", Json.str name)]) := by
  refine ⟨fun n => rfl, fun n => rfl, ?_, fun a b => ⟨_, rfl⟩, fun n p => ⟨_, rfl⟩,
    fun t s sc => ⟨_, rfl⟩, ?_, fun c => rfl, fun name => rfl⟩
  · intro n ms h
    cases n <;> simp [NumberProvider.serialize, NumVal.toJson] at h
  · intro t s sc
    by_cases h : sc = 1 <;>
      simp [NumberProvider.serialize, Json.objMembers, h]

/-- Witness for C7 at concrete providers (`Constant 5`, a `Score` with scale
2 and one with scale 1). -/
theorem C7_number_provider_witness :
    (NumberProvider.Constant (.int 5)).serialize = Json.num 5 ∧
    ((∃ v, ("scale", v) ∈
        ((NumberProvider.Score (.Fixed "foo") "bar" 2).serialize).objMembers) ↔ (2 : ℚ) ≠ 1) ∧
    ((∃ v, ("scale", v) ∈
        ((NumberProvider.Score (.Fixed "foo") "bar" 1).serialize).objMembers) ↔ (1 : ℚ) ≠ 1) :=
  ⟨C7_number_provider.2.1 5, C7_number_provider.2.2.2.2.2.2.1 (.Fixed "foo") "bar" 2,
    C7_number_provider.2.2.2.2.2.2.1 (.Fixed "foo") "bar" 1⟩

/-- C8: predicate trees serialize under the shared `condition` discriminant
with snake_case names, the nested predicate serialized by re-invoking the
same function: `Inverted{term}` is `condition: "inverted", term: <recursive>`
for every term, and at `term = RandomChance c` this yields exactly the
claimed nested document (at `c = 1/2`, the spec's example). -/
theorem C8_predicate_inverted :
    (∀ p, (Predicate.Inverted p).serialize
        = Json.obj [("condition", Json.str "inverted"), ("term", p.serialize)]) ∧
    (∀ c : ℚ, (Predicate.Inverted (.RandomChance c)).serialize
        = Json.obj [("condition", Json.str "inverted"),
            ("term", Json.obj [("condition", Json.str "random_chance"),
              ("chance", Json.num c)])]) ∧
    (Predicate.Inverted (.RandomChance (1/2))).serialize
        = Json.obj [("condition", Json.str "inverted"),
            ("term", Json.obj [("condition", Json.str "random_chance"),
              ("chance", Json.num (1/2))])] :=
  ⟨fun _ => rfl, fun _ => rfl, rfl⟩

/-- Witness for C8 at a doubly nested tree. -/
theorem C8_predicate_inverted_witness :
    (Predicate.Inverted (.Inverted (.RandomChance (1/4)))).serialize
      = Json.obj [("condition", Json.str "inverted"),
          ("term", (Predicate.Inverted (.RandomChance (1/4))).serialize)] :=
  C8_predicate_inverted.1 (.Inverted (.RandomChance (1/4)))

/-- C9: `LimitCountExact` and `LimitCountRange` both serialize with the same
discriminant `function: "limit_count"` and member keys exactly
`[function, limit]`; they differ only in the `limit` payload — the collapsed
number provider (a bare number for a constant) versus the `{min, max}`
object. -/
theorem C9_limit_count :
    (∀ np, (ItemModifier.LimitCountExact np).serialize
        = Json.obj [("function", Json.str "limit_count"), ("limit", np.serialize)]) ∧
    (∀ r : RangeNP, (ItemModifier.LimitCountRange r).serialize
        = Json.obj [("function", Json.str "limit_count"),
            ("limit", Json.obj [("min", r.min.serialize), ("max", r.max.serialize)])]) ∧
    (∀ n : Int, (ItemModifier.LimitCountExact (.Constant (.int n))).serialize
        = Json.obj [("function", Json.str "limit_count"), ("limit", Json.num n)]) ∧
    (∀ np, ((ItemModifier.LimitCountExact np).serialize).objMembers.map Prod.fst
        = ["function", "limit"]) ∧
    (∀ r : RangeNP, ((ItemModifier.LimitCountRange r).serialize).objMembers.map Prod.fst
        = ["function", "limit"]) :=
  ⟨fun _ => rfl, fun _ => rfl, fun _ => rfl, fun _ => rfl, fun _ => rfl⟩

/-- Witness for C9 at `limit = Constant 3` and `limit = {min: 1, max: 2}`. -/
theorem C9_limit_count_witness :
    (ItemModifier.LimitCountExact (.Constant (.int 3))).serialize
        = Json.obj [("function", Json.str "limit_count"), ("limit", Json.num 3)] ∧
    (ItemModifier.LimitCountRange ⟨.Constant (.int 1), .Constant (.int 2)⟩).serialize
        = Json.obj [("function", Json.str "limit_count"),
            ("limit", Json.obj [("min", Json.num 1), ("max", Json.num 2)])] :=
  ⟨C9_limit_count.2.2.1 3,
    C9_limit_count.2.1 ⟨.Constant (.int 1), .Constant (.int 2)⟩⟩

/-- C10: coordinate zero-elision — `Relative 0` renders `~`; `Relative x`
for `x ≠ 0` renders `~<x>`; `Absolute x` always renders its literal; `Mixed`
renders its three coordinates space-separated; `Local x y z` renders
`^<x> ^<y> ^<z>` with each axis literal elided exactly when the axis is 0,
so `Local 0 0 5` renders `^ ^ ^5`. -/
theorem C10_coordinates :
    (Coordinate.render (.Relative 0) = "~") ∧
    (∀ x : ℚ, x ≠ 0 → Coordinate.render (.Relative x) = "~" ++ fmtF64 x) ∧
    (∀ x : ℚ, Coordinate.render (.Absolute x) = fmtF64 x) ∧
    (∀ a b c : Coordinate, Coordinates.render (.Mixed a b c)
        = a.render ++ " " ++ b.render ++ " " ++ c.render) ∧
    (∀ x y z : ℚ, Coordinates.render (.Local x y z)
        = "^" ++ (if x = 0 then "" else fmtF64 x) ++ " ^" ++ (if y = 0 then "" else fmtF64 y)
            ++ " ^" ++ (if z = 0 then "" else fmtF64 z)) ∧
    (Coordinates.render (.Local 0 0 5) = "^ ^ ^5") ∧
    (Coordinate.render (.Relative 5) = "~5") ∧
    (Coordinate.render (.Absolute 3) = "3") := by
  refine ⟨rfl, ?_, fun x => rfl, fun a b c => rfl, ?_, rfl, rfl, rfl⟩
  · intro x hx
    simp [Coordinate.render, zero, hx]
  · intro x y z
    simp [Coordinates.render, zero, ite_not]

/-- Witness for C10 at `x = 5`. -/
theorem C10_coordinates_witness :
    (5 : ℚ) ≠ 0 ∧ Coordinate.render (.Relative 5) = "~" ++ fmtF64 5 :=
  ⟨by norm_num, C10_coordinates.2.1 5 (by norm_num)⟩

end Copper
